import Mathlib

/-!
Shallow embedding of the guest book CRUD service
(`github.com/moabdelazem/app`): the data model, the repository layer
(`internal/repository/guestbook.go`), the service layer
(`internal/service/guestbook.go`) and the HTTP handlers
(`internal/handlers`), together with the mux route shape (`[0-9]+`) of
`internal/server/server.go`.

Go strings are byte strings; `len` on a Go string is its UTF-8 byte
length, which we render as `String.utf8ByteSize`.  Go `time.Time` values
are rendered as integers (only their ordering and equality matter here).
The PostgreSQL store behind the repository is rendered as an explicit
state: a list of rows, the next SERIAL identifier, the current clock,
and an optional failure (when set, every statement the pool executes
fails with that driver text, which the repository wraps with
`fmt.Errorf("...: %w", err)` exactly as in the source).
-/

namespace Guestbook

/-- `models.GuestBookMessage`: the persisted entity. -/
structure GuestBookMessage where
  id : Int
  name : String
  email : String
  message : String
  createdAt : Int
  updatedAt : Int
  deriving Repr, DecidableEq

/-- `models.CreateGuestBookMessage`: the client-submitted draft. -/
structure CreateGuestBookMessage where
  name : String
  email : String
  message : String
  deriving Repr, DecidableEq

/-- Go `len` on a string: the number of bytes of its UTF-8 encoding. -/
def golen (s : String) : Nat := s.utf8ByteSize

/-- The store state behind `database.DB`: the `guest_book_messages`
table rows in insertion order, the next value of the SERIAL `id`
column, the clock used for `DEFAULT NOW()`, and — when `fail = some e`
— a connection/query failure with driver text `e` that every statement
hits. -/
structure DB where
  rows : List GuestBookMessage
  nextId : Int
  now : Int
  fail : Option String
  deriving Repr

/-! ## `strconv.Atoi`

Go's `strconv.Atoi` accepts an optional leading `+` or `-` followed by
one or more ASCII digits and nothing else; any other input yields an
error (rendered as `none`).  Word-size overflow is not rendered: the
identifiers in play are store-assigned and small. -/

/-- The numeric value of an ASCII digit, `none` for any other character. -/
def digitVal (c : Char) : Option Nat :=
  if '0' ≤ c ∧ c ≤ '9' then some (c.toNat - '0'.toNat) else none

/-- The digit-accumulation loop of `strconv.Atoi`: consume every
character, failing on the first non-digit. -/
def parseDigits : List Char → Nat → Option Nat
  | [], acc => some acc
  | c :: cs, acc =>
    match digitVal c with
    | none => none
    | some d => parseDigits cs (acc * 10 + d)

/-- `strconv.Atoi`. -/
def atoi (s : String) : Option Int :=
  match s.data with
  | [] => none
  | c :: cs =>
    if c = '-' then
      if cs = [] then none else (parseDigits cs 0).map (fun n => -(n : Int))
    else if c = '+' then
      if cs = [] then none else (parseDigits cs 0).map (fun n => (n : Int))
    else
      (parseDigits (c :: cs) 0).map (fun n => (n : Int))

/-- Two's-complement wrap-around of Go's 64-bit `int`: every Go
arithmetic result is reduced into [-2^63, 2^63). -/
def wrap64 (n : Int) : Int := (n + 2 ^ 63) % 2 ^ 64 - 2 ^ 63

/-- Go `int` subtraction (64-bit, wrapping). -/
def goSub (a b : Int) : Int := wrap64 (a - b)

/-- Go `int` multiplication (64-bit, wrapping). -/
def goMul (a b : Int) : Int := wrap64 (a * b)

/-- The error text of a failed computation, `none` on success. -/
def errText {α : Type} : Except String α → Option String
  | .error e => some e
  | .ok _ => none

/-! ## Repository layer (`internal/repository/guestbook.go`)

Each method runs one SQL statement through the pool; when the store is
failing, the statement errors and the method wraps the driver text with
the context string from the source. -/

namespace GuestBookRepository

/-- `INSERT INTO guest_book_messages (name, email, message) VALUES
($1,$2,$3) RETURNING id, name, email, message, created_at, updated_at`:
the store assigns the SERIAL id and sets both timestamps to `NOW()`. -/
def Create (db : DB) (msg : CreateGuestBookMessage) :
    Except String (GuestBookMessage × DB) :=
  match db.fail with
  | some e => .error ("failed to create guest book message: " ++ e)
  | none =>
    let row : GuestBookMessage :=
      { id := db.nextId, name := msg.name, email := msg.email,
        message := msg.message, createdAt := db.now, updatedAt := db.now }
    .ok (row, { db with rows := db.rows ++ [row], nextId := db.nextId + 1 })

/-- The `ORDER BY created_at DESC` ordering used by `GetAll`'s query
(a stable sort of the table rows, descending by creation time). -/
def orderByCreatedAtDesc (l : List GuestBookMessage) : List GuestBookMessage :=
  List.insertionSort (fun a b => b.createdAt ≤ a.createdAt) l

/-- `SELECT ... FROM guest_book_messages ORDER BY created_at DESC
LIMIT $1 OFFSET $2`.  PostgreSQL rejects a negative LIMIT or OFFSET
with an error, which the repository wraps like any other query
failure. -/
def GetAll (db : DB) (limit offset : Int) : Except String (List GuestBookMessage) :=
  match db.fail with
  | some e => .error ("failed to get guest book messages: " ++ e)
  | none =>
    if limit < 0 then
      .error ("failed to get guest book messages: "
        ++ "ERROR: LIMIT must not be negative (SQLSTATE 2201W)")
    else if offset < 0 then
      .error ("failed to get guest book messages: "
        ++ "ERROR: OFFSET must not be negative (SQLSTATE 2201X)")
    else
      .ok (((orderByCreatedAtDesc db.rows).drop offset.toNat).take limit.toNat)

/-- `SELECT ... FROM guest_book_messages WHERE id = $1`; `pgx.ErrNoRows`
is mapped to the domain not-found error. -/
def GetByID (db : DB) (id : Int) : Except String GuestBookMessage :=
  match db.fail with
  | some e => .error ("failed to get guest book message: " ++ e)
  | none =>
    match db.rows.find? (fun m => m.id = id) with
    | some m => .ok m
    | none => .error "guest book message not found"

/-- `SELECT COUNT(*) FROM guest_book_messages`. -/
def Count (db : DB) : Except String Int :=
  match db.fail with
  | some e => .error ("failed to count guest book messages: " ++ e)
  | none => .ok (db.rows.length : Int)

end GuestBookRepository

/-! ## Service layer (`internal/service/guestbook.go`) -/

namespace GuestBookService

/-- `validateCreateMessage`: the three length checks, in source order;
the result is the error message of the first failing check (`none` when
all pass).  `len` is the UTF-8 byte length `golen`. -/
def validateCreateMessage (msg : CreateGuestBookMessage) : Option String :=
  if golen msg.name < 2 ∨ golen msg.name > 100 then
    some "name must be between 2 and 100 characters"
  else if golen msg.email = 0 ∨ golen msg.email > 255 then
    some "email must be between 1 and 255 characters"
  else if golen msg.message < 10 ∨ golen msg.message > 1000 then
    some "message must be between 10 and 1000 characters"
  else
    none

/-- `CreateMessage`: validate, then delegate to the repository insert. -/
def CreateMessage (db : DB) (msg : CreateGuestBookMessage) :
    Except String (GuestBookMessage × DB) :=
  match validateCreateMessage msg with
  | some e => .error e
  | none => GuestBookRepository.Create db msg

/-- `GetMessages`: clamp `page` to ≥ 1 and `pageSize` into [1,100]
(default 10), compute `offset := (page - 1) * pageSize` in Go's
wrapping 64-bit `int` arithmetic, fetch the page and the total
count. -/
def GetMessages (db : DB) (page pageSize : Int) :
    Except String (List GuestBookMessage × Int) :=
  let page := if page < 1 then 1 else page
  let pageSize := if pageSize < 1 ∨ pageSize > 100 then 10 else pageSize
  let offset := goMul (goSub page 1) pageSize
  match GuestBookRepository.GetAll db pageSize offset with
  | .error e => .error e
  | .ok messages =>
    match GuestBookRepository.Count db with
    | .error e => .error e
    | .ok total => .ok (messages, total)

/-- `GetMessageByID`: parse the textual id with `strconv.Atoi`, then
delegate to the repository fetch. -/
def GetMessageByID (db : DB) (idStr : String) : Except String GuestBookMessage :=
  match atoi idStr with
  | none => .error "invalid message ID"
  | some id => GuestBookRepository.GetByID db id

end GuestBookService

/-! ## Handlers (`internal/handlers`) -/

/-- The JSON payload of a handler response. -/
inductive Body where
  /-- A single entity, as returned by the detail and create endpoints. -/
  | messageObj (m : GuestBookMessage)
  /-- The list endpoint's `{messages, pagination{page,page_size,total,total_pages}}`. -/
  | listObj (messages : List GuestBookMessage)
      (page pageSize total totalPages : Int)
  /-- The minimal error envelope `{"error": e}`. -/
  | errorObj (e : String)
  /-- The healthy response of the health-with-store-check endpoint. -/
  | healthOk
  deriving Repr, DecidableEq

/-- An HTTP response: status code and JSON body. -/
structure Response where
  status : Nat
  body : Body
  deriving Repr, DecidableEq

namespace GuestBookHandler

/-- Go integer division truncates toward zero. -/
def goIntDiv (a b : Int) : Int := Int.tdiv a b

/-- The handler's pagination arithmetic:
`totalPages := (total + pageSize - 1) / pageSize`. -/
def totalPagesCalc (total pageSize : Int) : Int :=
  goIntDiv (total + pageSize - 1) pageSize

/-- `GetGuestBookMessages` (GET /api/v1/guestbook): parse the `page` and
`page_size` query strings (`strconv.Atoi` with the error ignored, so a
missing or malformed parameter reads as 0), clamp, call the service, and
either report a constant 500 envelope or attach pagination metadata. -/
def GetGuestBookMessages (db : DB) (pageQ pageSizeQ : String) : Response :=
  let page0 := (atoi pageQ).getD 0
  let page := if page0 < 1 then 1 else page0
  let pageSize0 := (atoi pageSizeQ).getD 0
  let pageSize := if pageSize0 < 1 ∨ pageSize0 > 100 then 10 else pageSize0
  match GuestBookService.GetMessages db page pageSize with
  | .error _ => { status := 500, body := .errorObj "Failed to retrieve messages" }
  | .ok (messages, total) =>
    { status := 200,
      body := .listObj messages page pageSize total (totalPagesCalc total pageSize) }

/-- `GetGuestBookMessage` (GET /api/v1/guestbook/{id}): every service
error — parse failure, not found, or store failure — is reported as a
constant 404 envelope. -/
def GetGuestBookMessage (db : DB) (id : String) : Response :=
  match GuestBookService.GetMessageByID db id with
  | .error _ => { status := 404, body := .errorObj "Message not found" }
  | .ok m => { status := 200, body := .messageObj m }

/-- `CreateGuestBookMessage` (POST /api/v1/guestbook): a body that does
not decode yields 400 `"Invalid request body"`; any service error is
reported as 400 with the error's own text (`err.Error()`); success is
201 with the created entity.  The resulting store state is returned
alongside the response. -/
def CreateGuestBookMessage (db : DB) (body : Option CreateGuestBookMessage) :
    Response × DB :=
  match body with
  | none => ({ status := 400, body := .errorObj "Invalid request body" }, db)
  | some createMsg =>
    match GuestBookService.CreateMessage db createMsg with
    | .error e => ({ status := 400, body := .errorObj e }, db)
    | .ok (message, db2) => ({ status := 201, body := .messageObj message }, db2)

/-- `HealthHandlerWithDB` (GET /api/v1/health): 503 when the store ping
fails, 200 otherwise. -/
def HealthHandlerWithDB (db : DB) : Response :=
  match db.fail with
  | some _ => { status := 503, body := .errorObj "Database connection failed" }
  | none => { status := 200, body := .healthOk }

end GuestBookHandler

/-! ## Route shape (`internal/server/server.go`)

`GET /api/v1/guestbook/{id:[0-9]+}` matches only non-empty digit
sequences; anything else falls through to the 404 `NotFoundHandler`. -/

/-- The mux pattern `[0-9]+`. -/
def matchesIdPattern (s : String) : Bool :=
  !s.data.isEmpty && s.data.all (fun c => '0' ≤ c && c ≤ '9')

/-- Dispatch of GET /api/v1/guestbook/{id}: route-match then handler,
else the fuller 404 envelope of `NotFoundHandler`. -/
def getMessageEndpoint (db : DB) (idText : String) : Response :=
  if matchesIdPattern idText then GuestBookHandler.GetGuestBookMessage db idText
  else { status := 404, body := .errorObj "Not Found" }

/-! ## Spec-side vocabulary and sample data -/

/-- §3 name bound: byte length in [2,100]. -/
abbrev nameOk (msg : CreateGuestBookMessage) : Prop :=
  2 ≤ golen msg.name ∧ golen msg.name ≤ 100

/-- §3 contact bound: byte length in [1,255]. -/
abbrev emailOk (msg : CreateGuestBookMessage) : Prop :=
  1 ≤ golen msg.email ∧ golen msg.email ≤ 255

/-- §3 body bound: byte length in [10,1000]. -/
abbrev messageOk (msg : CreateGuestBookMessage) : Prop :=
  10 ≤ golen msg.message ∧ golen msg.message ≤ 1000

/-- The descending-creation-time ordering of the listing query. -/
abbrev createdDesc (a b : GuestBookMessage) : Prop := b.createdAt ≤ a.createdAt

instance : IsTotal GuestBookMessage (fun a b => b.createdAt ≤ a.createdAt) :=
  ⟨fun a b => le_total b.createdAt a.createdAt⟩

instance : IsTrans GuestBookMessage (fun a b => b.createdAt ≤ a.createdAt) :=
  ⟨fun _ _ _ h1 h2 => le_trans h2 h1⟩

/-- The decimal digits of a natural number, most significant first
(the text a JSON integer renders as). -/
def decimalDigits (n : Nat) : List Char :=
  if h : n < 10 then [Char.ofNat (48 + n)]
  else decimalDigits (n / 10) ++ [Char.ofNat (48 + n % 10)]
  termination_by n
  decreasing_by exact Nat.div_lt_self (by omega) (by omega)

/-- The decimal text of a natural number. -/
def decimalText (n : Nat) : String := String.mk (decimalDigits n)

/-- The row the repository insert persists for draft `msg` against
store state `db`: the next SERIAL id, the draft's fields, and both
timestamps set to the store clock. -/
def insertedRow (db : DB) (msg : CreateGuestBookMessage) : GuestBookMessage :=
  { id := db.nextId, name := msg.name, email := msg.email,
    message := msg.message, createdAt := db.now, updatedAt := db.now }

/-- A valid draft (the one the repository's tests post). -/
def msgA : CreateGuestBookMessage :=
  { name := "Test User", email := "test@example.com",
    message := "This is a test message for the guest book." }

/-- A draft whose name is one byte long (violates the name bound). -/
def msgBad : CreateGuestBookMessage :=
  { name := "A", email := "a@b.com", message := "this is long enough" }

/-- An empty, healthy store. -/
def db0 : DB := { rows := [], nextId := 1, now := 0, fail := none }

/-- A store whose every statement fails with driver text `e`. -/
def dbFail (e : String) : DB := { rows := [], nextId := 1, now := 0, fail := some e }

/-- A sample persisted row. -/
def rowA : GuestBookMessage :=
  { id := 1, name := "John Doe", email := "john.doe@example.com",
    message := "Hello, this is a test message!", createdAt := 10, updatedAt := 10 }

/-- A second, later sample row. -/
def rowB : GuestBookMessage :=
  { id := 2, name := "Jane Smith", email := "jane.smith@example.com",
    message := "Another test message for the guest book.", createdAt := 20, updatedAt := 20 }

/-- A healthy store holding two rows. -/
def dbTwo : DB := { rows := [rowA, rowB], nextId := 3, now := 30, fail := none }

end Guestbook

namespace Guestbook

/-! ## Theorems -/

/-- **C1.** `CreateMessage` checks name, then contact, then body, with
bounds [2,100] / [1,255] / [10,1000] on the byte lengths; the first
failing rule determines the single reported error, whose text names the
field and its bounds; and a draft inside all three bounds passes
validation and is delegated verbatim to the repository insert, whose
persisted entity carries the draft's name, email and message. -/
theorem createMessage_checks_fields_in_order (db : DB) (msg : CreateGuestBookMessage) :
    (¬ nameOk msg →
      GuestBookService.CreateMessage db msg =
        .error "name must be between 2 and 100 characters")
    ∧ (nameOk msg → ¬ emailOk msg →
      GuestBookService.CreateMessage db msg =
        .error "email must be between 1 and 255 characters")
    ∧ (nameOk msg → emailOk msg → ¬ messageOk msg →
      GuestBookService.CreateMessage db msg =
        .error "message must be between 10 and 1000 characters")
    ∧ (nameOk msg → emailOk msg → messageOk msg →
      GuestBookService.CreateMessage db msg = GuestBookRepository.Create db msg
      ∧ (db.fail = none →
        GuestBookService.CreateMessage db msg =
          .ok (insertedRow db msg,
               { db with
                   rows := db.rows ++ [insertedRow db msg],
                   nextId := db.nextId + 1 }))) := by
  unfold GuestBookService.CreateMessage GuestBookService.validateCreateMessage
  refine ⟨?_, ?_, ?_, ?_⟩
  · intro h
    rw [if_pos (by simp only [nameOk, not_and_or, not_le] at h; omega)]
  · intro h1 h2
    rw [if_neg (by omega), if_pos (by simp only [emailOk, not_and_or, not_le] at h2; omega)]
  · intro h1 h2 h3
    rw [if_neg (by omega), if_neg (by omega),
      if_pos (by simp only [messageOk, not_and_or, not_le] at h3; omega)]
  · intro h1 h2 h3
    rw [if_neg (by omega), if_neg (by omega), if_neg (by omega)]
    refine ⟨rfl, fun hdb => ?_⟩
    unfold GuestBookRepository.Create
    rw [hdb]
    rfl

/-- **C7.** A draft violating at least one bound is rejected by
validation, and the rejection is independent of the store: for every
store state the result is the same validation error, no insert happens
and no new store state is produced. -/
theorem createMessage_rejects_before_store (msg : CreateGuestBookMessage)
    (hbad : ¬ (nameOk msg ∧ emailOk msg ∧ messageOk msg)) :
    ∃ e, GuestBookService.validateCreateMessage msg = some e
      ∧ ∀ db : DB, GuestBookService.CreateMessage db msg = .error e := by
  have step : ∀ e, GuestBookService.validateCreateMessage msg = some e →
      ∀ db : DB, GuestBookService.CreateMessage db msg = .error e := by
    intro e he db
    unfold GuestBookService.CreateMessage
    rw [he]
  unfold GuestBookService.validateCreateMessage
  by_cases hn : golen msg.name < 2 ∨ golen msg.name > 100
  · exact ⟨_, by rw [if_pos hn], step _ (by
      unfold GuestBookService.validateCreateMessage; rw [if_pos hn])⟩
  · by_cases he : golen msg.email = 0 ∨ golen msg.email > 255
    · exact ⟨_, by rw [if_neg hn, if_pos he], step _ (by
        unfold GuestBookService.validateCreateMessage; rw [if_neg hn, if_pos he])⟩
    · by_cases hm : golen msg.message < 10 ∨ golen msg.message > 1000
      · exact ⟨_, by rw [if_neg hn, if_neg he, if_pos hm], step _ (by
          unfold GuestBookService.validateCreateMessage
          rw [if_neg hn, if_neg he, if_pos hm])⟩
      · exact absurd ⟨by omega, by omega, by omega⟩ hbad

/-- Witness for C7 at the one-byte-name draft. -/
theorem createMessage_rejects_before_store_witness :
    ∃ e, GuestBookService.validateCreateMessage msgBad = some e
      ∧ ∀ db : DB, GuestBookService.CreateMessage db msgBad = .error e :=
  createMessage_rejects_before_store msgBad (by decide)

/-- **C10.** Validation measures field lengths in UTF-8 bytes, not
characters: acceptance or rejection depends only on the byte lengths of
the three fields; a name of 60 two-byte characters (120 bytes, 60
characters) is rejected, and a message body of 5 two-byte characters
(10 bytes, 5 characters) is accepted. -/
theorem validation_measures_bytes_not_characters :
    (∀ m1 m2 : CreateGuestBookMessage,
        golen m1.name = golen m2.name → golen m1.email = golen m2.email →
        golen m1.message = golen m2.message →
        GuestBookService.validateCreateMessage m1 = GuestBookService.validateCreateMessage m2
        ∧ ∀ db : DB, (GuestBookService.CreateMessage db m1).isOk
            = (GuestBookService.CreateMessage db m2).isOk)
    ∧ (String.mk (List.replicate 60 'é')).length = 60
    ∧ GuestBookService.validateCreateMessage
        { name := String.mk (List.replicate 60 'é'), email := "a@b.com",
          message := "this is long enough" }
        = some "name must be between 2 and 100 characters"
    ∧ (String.mk (List.replicate 5 'é')).length = 5
    ∧ GuestBookService.validateCreateMessage
        { name := "Jo", email := "a@b.com", message := String.mk (List.replicate 5 'é') }
        = none := by
  refine ⟨?_, by decide, by decide, by decide, by decide⟩
  intro m1 m2 h1 h2 h3
  have hv : GuestBookService.validateCreateMessage m1
      = GuestBookService.validateCreateMessage m2 := by
    unfold GuestBookService.validateCreateMessage
    rw [h1, h2, h3]
  refine ⟨hv, fun db => ?_⟩
  unfold GuestBookService.CreateMessage
  rw [hv]
  cases GuestBookService.validateCreateMessage m2 with
  | some e => rfl
  | none =>
    unfold GuestBookRepository.Create
    cases db.fail <;> rfl

/-- **C2.** The handler's pagination arithmetic
`(total + pageSize - 1) / pageSize` (Go integer division) equals
`ceil(total / pageSize)` for every `total ≥ 0` and clamped page size in
[1,100], and is 0 when `total = 0`. -/
theorem totalPages_is_ceiling (total pageSize : Int)
    (ht : 0 ≤ total) (h1 : 1 ≤ pageSize) (h100 : pageSize ≤ 100) :
    GuestBookHandler.totalPagesCalc total pageSize = ⌈(total : ℚ) / (pageSize : ℚ)⌉
    ∧ (total = 0 → GuestBookHandler.totalPagesCalc total pageSize = 0) := by
  have hp : (0 : Int) < pageSize := by omega
  have hpq : (0 : ℚ) < (pageSize : ℚ) := by exact_mod_cast hp
  have main : GuestBookHandler.totalPagesCalc total pageSize
      = ⌈(total : ℚ) / (pageSize : ℚ)⌉ := by
    unfold GuestBookHandler.totalPagesCalc GuestBookHandler.goIntDiv
    have ha : (0 : Int) ≤ total + pageSize - 1 := by omega
    rw [Int.tdiv_eq_ediv ha (le_of_lt hp)]
    set q : Int := (total + pageSize - 1) / pageSize with hq
    have hmod := Int.ediv_add_emod (total + pageSize - 1) pageSize
    have hr0 : 0 ≤ (total + pageSize - 1) % pageSize := Int.emod_nonneg _ (by omega)
    have hrlt : (total + pageSize - 1) % pageSize < pageSize := Int.emod_lt_of_pos _ hp
    have hle : total ≤ q * pageSize := by nlinarith [hmod, hrlt]
    have hlt : (q - 1) * pageSize < total := by nlinarith [hmod, hr0]
    symm
    rw [Int.ceil_eq_iff]
    constructor
    · rw [lt_div_iff₀ hpq]
      exact_mod_cast hlt
    · rw [div_le_iff₀ hpq]
      exact_mod_cast hle
  refine ⟨main, fun h0 => ?_⟩
  rw [main, h0]
  norm_num

/-- Witness for C2 at total 5, page size 2 (ceiling 3). -/
theorem totalPages_is_ceiling_witness :
    GuestBookHandler.totalPagesCalc 5 2 = ⌈(5 : ℚ) / ((2 : Int) : ℚ)⌉
    ∧ ((5 : Int) = 0 → GuestBookHandler.totalPagesCalc 5 2 = 0) :=
  totalPages_is_ceiling 5 2 (by norm_num) (by norm_num) (by norm_num)

set_option maxRecDepth 8000 in
/-- **C3 counterexample.** At `page = 2^63 - 1` (Go `MaxInt64`, sent by
a client as `?page=9223372036854775807`) and page size 10, the
normalized offset `(page - 1) * pageSize` wraps in 64-bit arithmetic to
-20; the store rejects the negative OFFSET, so `GetMessages` errors
against a perfectly healthy store — refuting "clamping never produces
an error". -/
theorem getMessages_overflow_errors :
    db0.fail = none
    ∧ errText (GuestBookService.GetMessages db0 (2 ^ 63 - 1) 10)
      = some ("failed to get guest book messages: "
        ++ "ERROR: OFFSET must not be negative (SQLSTATE 2201X)")
    ∧ (GuestBookService.GetMessages db0 (2 ^ 63 - 1) 10).isOk = false := by decide

/-- **C3 (amended).** `GetMessages` behaves as if `page` were
`max page 1` and as if `pageSize` were 10 whenever it lies outside
[1,100]; with those normalized values it queries the store page at the
offset `(page - 1) * pageSize` computed in Go's wrapping 64-bit
arithmetic, alongside the total count; clamping introduces no error
path of its own, and against a healthy store the call succeeds whenever
the true product `(page - 1) * pageSize` of the normalized values stays
below 2^63 — when it overflows, the wrapped offset can be negative and
the store rejects it (see the counterexample). -/
theorem getMessages_clamps_wraps_and_offsets (db : DB) (page pageSize : Int) :
    GuestBookService.GetMessages db page pageSize
      = GuestBookService.GetMessages db (max page 1)
          (if pageSize < 1 ∨ pageSize > 100 then 10 else pageSize)
    ∧ GuestBookService.GetMessages db page pageSize
      = (match GuestBookRepository.GetAll db
            (if pageSize < 1 ∨ pageSize > 100 then 10 else pageSize)
            (goMul (goSub (max page 1) 1)
              (if pageSize < 1 ∨ pageSize > 100 then 10 else pageSize)) with
         | .error e => .error e
         | .ok messages =>
           match GuestBookRepository.Count db with
           | .error e => .error e
           | .ok total => .ok (messages, total))
    ∧ (db.fail = none →
        (max page 1 - 1) * (if pageSize < 1 ∨ pageSize > 100 then 10 else pageSize)
          < 2 ^ 63 →
        (GuestBookService.GetMessages db page pageSize).isOk = true) := by
  set ps : Int := if pageSize < 1 ∨ pageSize > 100 then 10 else pageSize with hps
  have hps1 : 1 ≤ ps := by rw [hps]; split <;> omega
  have hps100 : ps ≤ 100 := by rw [hps]; split <;> omega
  have hmax : (if page < 1 then (1 : Int) else page) = max page 1 := by split <;> omega
  have key : GuestBookService.GetMessages db page pageSize
      = (match GuestBookRepository.GetAll db ps (goMul (goSub (max page 1) 1) ps) with
         | .error e => .error e
         | .ok messages =>
           match GuestBookRepository.Count db with
           | .error e => .error e
           | .ok total => .ok (messages, total)) := by
    unfold GuestBookService.GetMessages
    dsimp only
    rw [hmax, ← hps]
  have keyNorm : GuestBookService.GetMessages db (max page 1) ps
      = (match GuestBookRepository.GetAll db ps (goMul (goSub (max page 1) 1) ps) with
         | .error e => .error e
         | .ok messages =>
           match GuestBookRepository.Count db with
           | .error e => .error e
           | .ok total => .ok (messages, total)) := by
    unfold GuestBookService.GetMessages
    dsimp only
    have h1 : (if max page 1 < 1 then (1 : Int) else max page 1) = max page 1 := by
      split <;> omega
    have h2 : (if ps < 1 ∨ ps > 100 then (10 : Int) else ps) = ps := by
      split <;> omega
    rw [h1, h2]
  refine ⟨key.trans keyNorm.symm, key, fun hdb hbound => ?_⟩
  rw [key]
  have hd0 : (0 : Int) ≤ max page 1 - 1 := by
    have := le_max_right page (1 : Int)
    omega
  have hdlt : max page 1 - 1 < 2 ^ 63 :=
    lt_of_le_of_lt (le_mul_of_one_le_right hd0 hps1) hbound
  have hsub : goSub (max page 1) 1 = max page 1 - 1 := by
    unfold goSub wrap64
    omega
  have hprod0 : (0 : Int) ≤ (max page 1 - 1) * ps := mul_nonneg hd0 (by omega)
  have hmul : goMul (max page 1 - 1) ps = (max page 1 - 1) * ps := by
    unfold goMul wrap64
    obtain ⟨prod, hprod⟩ : ∃ p, (max page 1 - 1) * ps = p := ⟨_, rfl⟩
    rw [hprod] at hbound hprod0 ⊢
    omega
  rw [hsub, hmul]
  unfold GuestBookRepository.GetAll
  rw [hdb]
  dsimp only
  rw [if_neg (not_lt.mpr (by omega : (0 : Int) ≤ ps)), if_neg (not_lt.mpr hprod0)]
  unfold GuestBookRepository.Count
  rw [hdb]
  rfl

/-- **C4 counterexample.** With a failing store, the create endpoint
answers 400 and the detail endpoint 404 — not the claimed 500. -/
theorem storeFailure_not_always_500 :
    (GuestBookHandler.CreateGuestBookMessage (dbFail "driver: connection refused")
        (some msgA)).1.status = 400
    ∧ (GuestBookHandler.GetGuestBookMessage (dbFail "driver: connection refused")
        "1").status = 404
    ∧ (400 : Nat) ≠ 500 ∧ (404 : Nat) ≠ 500 := by decide

/-- **C4 (amended).** When every store operation fails, the list
endpoint answers 500 and the health-with-store-check endpoint 503, as
claimed; but the create endpoint maps every service error — store
failures included — to 400, and the fetch-by-id endpoint maps every
service error to 404. -/
theorem storeFailure_status_by_endpoint (db : DB) (e : String) (hdb : db.fail = some e) :
    (∀ pageQ pageSizeQ,
      (GuestBookHandler.GetGuestBookMessages db pageQ pageSizeQ).status = 500)
    ∧ (GuestBookHandler.HealthHandlerWithDB db).status = 503
    ∧ (∀ body, (GuestBookHandler.CreateGuestBookMessage db body).1.status = 400)
    ∧ (∀ idText, (GuestBookHandler.GetGuestBookMessage db idText).status = 404) := by
  have hga : ∀ l o : Int, GuestBookRepository.GetAll db l o
      = .error ("failed to get guest book messages: " ++ e) := by
    intro l o
    unfold GuestBookRepository.GetAll
    rw [hdb]
  have hgm : ∀ p q : Int, GuestBookService.GetMessages db p q
      = .error ("failed to get guest book messages: " ++ e) := by
    intro p q
    unfold GuestBookService.GetMessages
    dsimp only
    rw [hga]
  refine ⟨fun pageQ pageSizeQ => ?_, ?_, fun body => ?_, fun idText => ?_⟩
  · unfold GuestBookHandler.GetGuestBookMessages
    dsimp only
    rw [hgm]
  · unfold GuestBookHandler.HealthHandlerWithDB
    rw [hdb]
  · cases body with
    | none => rfl
    | some msg =>
      unfold GuestBookHandler.CreateGuestBookMessage GuestBookService.CreateMessage
      dsimp only
      cases hv : GuestBookService.validateCreateMessage msg with
      | some e2 => rfl
      | none =>
        unfold GuestBookRepository.Create
        rw [hdb]
  · unfold GuestBookHandler.GetGuestBookMessage GuestBookService.GetMessageByID
    cases atoi idText with
    | none => rfl
    | some n =>
      unfold GuestBookRepository.GetByID
      rw [hdb]

/-- Witness for the amended C4 at a concrete failing store. -/
theorem storeFailure_status_by_endpoint_witness :
    (∀ pageQ pageSizeQ,
      (GuestBookHandler.GetGuestBookMessages (dbFail "driver: timeout")
        pageQ pageSizeQ).status = 500)
    ∧ (GuestBookHandler.HealthHandlerWithDB (dbFail "driver: timeout")).status = 503
    ∧ (∀ body, (GuestBookHandler.CreateGuestBookMessage (dbFail "driver: timeout")
        body).1.status = 400)
    ∧ (∀ idText, (GuestBookHandler.GetGuestBookMessage (dbFail "driver: timeout")
        idText).status = 404) :=
  storeFailure_status_by_endpoint (dbFail "driver: timeout") "driver: timeout" rfl

/-- **C6 (code bug).** Two store failures that differ only in driver
text yield different client envelopes on the create endpoint: the
handler serializes `err.Error()` — the repository wrapping plus the
driver detail — into the response body. -/
theorem create_serializes_driver_text :
    (GuestBookHandler.CreateGuestBookMessage (dbFail "driver: connection refused")
        (some msgA)).1
      = { status := 400,
          body := .errorObj "failed to create guest book message: driver: connection refused" }
    ∧ (GuestBookHandler.CreateGuestBookMessage (dbFail "driver: timeout") (some msgA)).1
      ≠ (GuestBookHandler.CreateGuestBookMessage (dbFail "driver: connection refused")
        (some msgA)).1 := by decide

/-- **C5.** A well-formed numeric id matching no stored row yields 404;
a non-numeric id is rejected by the `[0-9]+` route pattern into the 404
handler, and even when routed to the handler its parse failure inside
`GetMessageByID` yields 404; the endpoint never answers 400. -/
theorem getMessage_absent_or_nonNumeric_is_404 (db : DB) (idText : String) :
    (∀ n : Int, atoi idText = some n → (∀ m ∈ db.rows, m.id ≠ n) →
      (getMessageEndpoint db idText).status = 404)
    ∧ (matchesIdPattern idText = false → (getMessageEndpoint db idText).status = 404)
    ∧ (atoi idText = none →
      (GuestBookHandler.GetGuestBookMessage db idText).status = 404)
    ∧ (getMessageEndpoint db idText).status ≠ 400 := by
  have handler404 : ∀ n : Int, atoi idText = some n → (∀ m ∈ db.rows, m.id ≠ n) →
      (GuestBookHandler.GetGuestBookMessage db idText).status = 404 := by
    intro n ha hno
    unfold GuestBookHandler.GetGuestBookMessage GuestBookService.GetMessageByID
    rw [ha]
    unfold GuestBookRepository.GetByID
    cases hdb : db.fail with
    | some e => rfl
    | none =>
      dsimp only
      have hf : db.rows.find? (fun m => m.id = n) = none :=
        List.find?_eq_none.mpr (fun x hx => by simp [hno x hx])
      rw [hf]
  refine ⟨fun n ha hno => ?_, fun hm => ?_, fun ha => ?_, ?_⟩
  · unfold getMessageEndpoint
    split
    · exact handler404 n ha hno
    · rfl
  · unfold getMessageEndpoint
    rw [hm]
    rfl
  · unfold GuestBookHandler.GetGuestBookMessage GuestBookService.GetMessageByID
    rw [ha]
  · unfold getMessageEndpoint
    split
    · unfold GuestBookHandler.GetGuestBookMessage
      cases GuestBookService.GetMessageByID db idText <;> simp
    · simp

/-- **C8.** Against a healthy store, `GetAll` succeeds with a page of
at most `limit` entities, sorted descending by creation timestamp, and
returns the empty page (not an error) whenever `offset` reaches the
total row count. -/
theorem getAll_returns_bounded_sorted_page (db : DB) (limit offset : Int)
    (hdb : db.fail = none) (hl : 0 ≤ limit) (ho : 0 ≤ offset) :
    ∃ msgs, GuestBookRepository.GetAll db limit offset = .ok msgs
      ∧ (msgs.length : Int) ≤ limit
      ∧ List.Sorted (fun a b => b.createdAt ≤ a.createdAt) msgs
      ∧ ((db.rows.length : Int) ≤ offset → msgs = []) := by
  refine ⟨((GuestBookRepository.orderByCreatedAtDesc db.rows).drop offset.toNat).take
      limit.toNat, ?_, ?_, ?_, ?_⟩
  · unfold GuestBookRepository.GetAll
    rw [hdb]
    dsimp only
    rw [if_neg (by omega), if_neg (by omega)]
  · have h := List.length_take_le limit.toNat
      ((GuestBookRepository.orderByCreatedAtDesc db.rows).drop offset.toNat)
    omega
  · have hs : List.Sorted (fun a b : GuestBookMessage => b.createdAt ≤ a.createdAt)
        (GuestBookRepository.orderByCreatedAtDesc db.rows) :=
      List.sorted_insertionSort _ db.rows
    exact List.Pairwise.sublist
      ((List.take_sublist _ _).trans (List.drop_sublist _ _)) hs
  · intro hoff
    have hlen : (GuestBookRepository.orderByCreatedAtDesc db.rows).length ≤ offset.toNat := by
      have := (List.perm_insertionSort
        (fun a b : GuestBookMessage => b.createdAt ≤ a.createdAt) db.rows).length_eq
      unfold GuestBookRepository.orderByCreatedAtDesc
      omega
    rw [List.drop_eq_nil_of_le hlen, List.take_nil]

/-- Witness for C8 at the two-row store, limit 10, offset 0. -/
theorem getAll_returns_bounded_sorted_page_witness :
    ∃ msgs, GuestBookRepository.GetAll dbTwo 10 0 = .ok msgs
      ∧ (msgs.length : Int) ≤ 10
      ∧ List.Sorted (fun a b => b.createdAt ≤ a.createdAt) msgs
      ∧ ((dbTwo.rows.length : Int) ≤ 0 → msgs = []) :=
  getAll_returns_bounded_sorted_page dbTwo 10 0 rfl (by norm_num) le_rfl

/-- `parseDigits` over a concatenation: parse the first block, then
continue with its accumulator. -/
theorem parseDigits_append (l1 l2 : List Char) (acc : Nat) :
    parseDigits (l1 ++ l2) acc
      = match parseDigits l1 acc with
        | none => none
        | some m => parseDigits l2 m := by
  induction l1 generalizing acc with
  | nil => rfl
  | cons c cs ih =>
    simp only [List.cons_append, parseDigits]
    cases digitVal c with
    | none => rfl
    | some d => exact ih _

/-- An ASCII digit character reads back as its value. -/
theorem digitVal_ofNat (r : Nat) (h : r < 10) : digitVal (Char.ofNat (48 + r)) = some r := by
  interval_cases r <;> decide

/-- A digit character is neither sign mark. -/
theorem digitChar_ne_sign (r : Nat) (h : r < 10) :
    Char.ofNat (48 + r) ≠ '-' ∧ Char.ofNat (48 + r) ≠ '+' := by
  interval_cases r <;> exact ⟨by decide, by decide⟩

/-- Parsing the decimal digits of `n` on top of accumulator `acc`
yields `acc` shifted past them, plus `n`. -/
theorem parseDigits_decimalDigits (n : Nat) :
    ∀ acc, parseDigits (decimalDigits n) acc
      = some (acc * 10 ^ (decimalDigits n).length + n) := by
  induction n using Nat.strong_induction_on with
  | _ n ih =>
    intro acc
    by_cases h : n < 10
    · rw [decimalDigits, dif_pos h]
      simp [parseDigits, digitVal_ofNat n h]
    · rw [decimalDigits, dif_neg h]
      rw [parseDigits_append]
      rw [ih (n / 10) (Nat.div_lt_self (by omega) (by omega))]
      have h10 : n % 10 < 10 := Nat.mod_lt _ (by omega)
      simp only [parseDigits, digitVal_ofNat (n % 10) h10, List.length_append,
        List.length_cons, List.length_nil]
      have hn : n / 10 * 10 + n % 10 = n := by omega
      congr 1
      set K : Nat := 10 ^ (decimalDigits (n / 10)).length with hK
      calc (acc * K + n / 10) * 10 + n % 10
          = acc * (K * 10) + (n / 10 * 10 + n % 10) := by ring
        _ = acc * 10 ^ ((decimalDigits (n / 10)).length + (0 + 1)) + n := by
            rw [hn, hK, ← pow_succ]

/-- The decimal rendering is nonempty and begins with a digit. -/
theorem decimalDigits_head (n : Nat) :
    ∃ r rest, r < 10 ∧ decimalDigits n = Char.ofNat (48 + r) :: rest := by
  induction n using Nat.strong_induction_on with
  | _ n ih =>
    by_cases h : n < 10
    · exact ⟨n, [], h, by rw [decimalDigits, dif_pos h]⟩
    · obtain ⟨r, rest, hr, hd⟩ := ih (n / 10) (Nat.div_lt_self (by omega) (by omega))
      exact ⟨r, rest ++ [Char.ofNat (48 + n % 10)], hr, by
        rw [decimalDigits, dif_neg h, hd]
        rfl⟩

/-- `strconv.Atoi` reads back the decimal text of any natural number. -/
theorem atoi_decimalText (n : Nat) : atoi (decimalText n) = some (n : Int) := by
  obtain ⟨r, rest, hr, hd⟩ := decimalDigits_head n
  unfold atoi decimalText
  dsimp only
  rw [hd]
  dsimp only
  rw [if_neg (digitChar_ne_sign r hr).1, if_neg (digitChar_ne_sign r hr).2]
  rw [← hd, parseDigits_decimalDigits n 0]
  simp

/-- **C9.** A valid draft created against a healthy store whose next
identifier is fresh and nonnegative is retrievable through
`GetMessageByID` using the decimal text of its assigned identifier, and
the retrieved entity is the created one, whose fields echo the draft
with the store-assigned id and timestamps. -/
theorem create_then_getById_roundtrip (db : DB) (msg : CreateGuestBookMessage)
    (hname : nameOk msg) (hemail : emailOk msg) (hmsg : messageOk msg)
    (hdb : db.fail = none) (hid0 : 0 ≤ db.nextId)
    (hfresh : ∀ m ∈ db.rows, m.id ≠ db.nextId) :
    ∃ ent db2, GuestBookService.CreateMessage db msg = .ok (ent, db2)
      ∧ GuestBookService.GetMessageByID db2 (decimalText ent.id.toNat) = .ok ent
      ∧ ent.name = msg.name ∧ ent.email = msg.email ∧ ent.message = msg.message
      ∧ ent.id = db.nextId ∧ ent.createdAt = db.now ∧ ent.updatedAt = db.now := by
  have hv : GuestBookService.validateCreateMessage msg = none := by
    unfold GuestBookService.validateCreateMessage
    rw [if_neg (by omega), if_neg (by omega), if_neg (by omega)]
  refine ⟨insertedRow db msg,
    { db with rows := db.rows ++ [insertedRow db msg], nextId := db.nextId + 1 },
    ?_, ?_, rfl, rfl, rfl, rfl, rfl, rfl⟩
  · unfold GuestBookService.CreateMessage
    rw [hv]
    unfold GuestBookRepository.Create
    rw [hdb]
    rfl
  · unfold GuestBookService.GetMessageByID
    have hid : (insertedRow db msg).id = db.nextId := rfl
    rw [hid, atoi_decimalText]
    dsimp only
    rw [Int.toNat_of_nonneg hid0]
    unfold GuestBookRepository.GetByID
    dsimp only
    rw [hdb]
    dsimp only
    rw [List.find?_append]
    have h1 : db.rows.find? (fun m => m.id = db.nextId) = none :=
      List.find?_eq_none.mpr (fun x hx => by simp [hfresh x hx])
    rw [h1]
    simp [insertedRow]

/-- Witness for C9: the test draft against the empty healthy store. -/
theorem create_then_getById_roundtrip_witness :
    ∃ ent db2, GuestBookService.CreateMessage db0 msgA = .ok (ent, db2)
      ∧ GuestBookService.GetMessageByID db2 (decimalText ent.id.toNat) = .ok ent
      ∧ ent.name = msgA.name ∧ ent.email = msgA.email ∧ ent.message = msgA.message
      ∧ ent.id = db0.nextId ∧ ent.createdAt = db0.now ∧ ent.updatedAt = db0.now :=
  create_then_getById_roundtrip db0 msgA (by decide) (by decide) (by decide) rfl
    (by decide) (by simp [db0])

end Guestbook
